import Mathlib

/-!
Verification of the ChatTFM hybrid RAG service against its specification.

The Python sources are shallowly embedded: scores and other floating-point
values are modelled as exact rationals (`ℚ`), Python dictionaries built from
literals as association lists where a later entry overrides an earlier one
(Python dict-literal semantics), `None`-able values as `Option`, and fallible
calls (RPC transport, LLM synthesis, corpus fetch) as `Except String`
parameters supplied by the caller, so that every control path of the Python
function becomes a total Lean function of the collaborator outcomes.

Components that the repository's test suite imports (`RAGConfig` and the
optimized `RAGService` with the adaptive threshold ladder, fusion
deduplication, relevance gate and confidence assembly, used by
`src/Testing/test_threshold_improvements.py` and
`src/Testing/test_optimized_service.py`) are not present under `src/`; those
definitions are modelled from the specification's words and carry a doc
comment starting with `Modelled from the spec:`.
-/

namespace ChatTFM

/-- A JSON-like scalar value as it appears in the rows returned by the
Supabase RPC and stored in langchain `Document.metadata`. -/
inductive JsonVal where
  | str (s : String)
  | num (q : ℚ)
  | nil
deriving DecidableEq, Repr

/-- A Python dict as built by a dict literal: an association list in literal
order; on duplicate keys the later entry wins (Python semantics). -/
abbrev Dict := List (String × JsonVal)

/-- Lookup in a `Dict`: the value of the LAST entry with the key (a later
entry of a Python dict literal overrides an earlier one), `none` when the
key is absent (Python `dict.get(k)` returning `None`). -/
def dictGet (d : Dict) (k : String) : Option JsonVal :=
  (d.reverse.find? (fun p => p.1 == k)).map (fun p => p.2)

/-- One row of the Supabase RPC `match_chunks` response, as consumed by
`SupabaseRPCRetriever._get_relevant_documents` (src/rag_service.py lines
73-84): optional `text`/`content` for the passage, optional `file_name`,
optional `similarity`/`score`, plus a nested `metadata` dict that the source
splats into the document metadata (`**m.get("metadata", {})`). -/
structure RPCMatch where
  text : Option String
  content : Option String
  file_name : Option String
  similarity : Option ℚ
  score : Option ℚ
  metadata : Dict
deriving DecidableEq, Repr

/-- A langchain `Document` as built by the source: `page_content` plus a
metadata dict. -/
structure Document where
  page_content : String
  metadata : Dict
deriving DecidableEq, Repr

/-- The `file_name` drawn from the nested RPC metadata dict,
`m.get("metadata", {}).get("file_name")` in the source. -/
def metaFileName (m : RPCMatch) : JsonVal :=
  (dictGet m.metadata "file_name").getD JsonVal.nil

/-- The `Document` built for one RPC match in src/rag_service.py lines
73-84: `page_content = m.get("text", m.get("content", ""))`, and metadata
`{"file_name": ..., "score": m.get("similarity", m.get("score", 0.0)),
**m.get("metadata", {})}` — the splatted nested metadata comes last, so its
entries override the first two on key collision. -/
def docOfMatch (m : RPCMatch) : Document :=
  { page_content := m.text.getD (m.content.getD "")
    metadata :=
      [("file_name", match m.file_name with
          | some s => JsonVal.str s
          | none => metaFileName m),
       ("score", JsonVal.num (m.similarity.getD (m.score.getD 0)))]
      ++ m.metadata }

/-- The numeric `score` entry of a document's metadata, `0` when absent or
non-numeric (the reading `doc.metadata.get('score', 0)` used by the tests). -/
def docScore (d : Document) : ℚ :=
  match dictGet d.metadata "score" with
  | some (JsonVal.num q) => q
  | _ => 0

/-- The pydantic fields of `SupabaseRPCRetriever` (src/rag_service.py lines
29-43); the Supabase client handle is a collaborator and is modelled as the
RPC outcome passed to `getRelevantDocuments`. -/
structure SupabaseRPCRetriever where
  rpc_name : String := "match_chunks"
  top_k : Nat := 10
  threshold : ℚ := 0.2
deriving DecidableEq, Repr

/-- `SupabaseRPCRetriever._get_relevant_documents` (src/rag_service.py lines
45-84). `rpcData` is the outcome of
`self._client.rpc(self.rpc_name, {...}).execute().data`: an `Except` error
for a transport failure (the source has no try/except here, so a raised
error propagates to the caller), otherwise an optional list of matches
(`None` or `[]` both yield `[]` through `if not matches`). The retriever's
`threshold` is sent to the RPC but the returned matches are mapped to
documents with NO client-side score filtering. -/
def getRelevantDocuments (r : SupabaseRPCRetriever)
    (rpcData : Except String (Option (List RPCMatch))) :
    Except String (List Document) :=
  match rpcData with
  | Except.error e => Except.error e
  | Except.ok rows =>
    Except.ok (match rows with
      | none => []
      | some ms => if ms.isEmpty then [] else ms.map docOfMatch)

/-- Python truthiness of `os.getenv`'s result: `None` and the empty string
are falsy. -/
def truthyStr : Option String → Bool
  | none => false
  | some s => s != ""

/-- The error message raised by `RAGService.__init__` when a credential is
missing (src/rag_service.py line 93). -/
def missingCredentialsMsg : String :=
  "Supabase URL, Key, or OpenAI API Key not found in environment variables."

/-- The service state assembled by `RAGService.__init__`
(src/rag_service.py lines 87-108): the three credentials and the BM25
corpus cache `all_docs`, initialised to `None`. The env-derived default
parameters are modelled separately by `Defaults`. -/
structure RAGServiceState where
  supabase_url : String
  supabase_key : String
  openai_api_key : String
  all_docs : Option (List Document)
deriving Repr

/-- `RAGService.__init__` of src/rag_service.py (lines 87-108): reads
`SUPABASE_URL`, `SUPABASE_SERVICE_KEY` and `OPEN_AI_KEY` from the
environment and raises `ValueError` (modelled as `Except.error`) when
`not all([...])`, i.e. when any of the three is `None` or empty. -/
def ragServiceInit (env : String → Option String) :
    Except String RAGServiceState :=
  let url := env "SUPABASE_URL"
  let key := env "SUPABASE_SERVICE_KEY"
  let oai := env "OPEN_AI_KEY"
  if truthyStr url && truthyStr key && truthyStr oai then
    Except.ok
      { supabase_url := url.getD ""
        supabase_key := key.getD ""
        openai_api_key := oai.getD ""
        all_docs := none }
  else
    Except.error missingCredentialsMsg

/-- `RAGService.__init__` of src/rag_service_deploy.py (lines 11-27): reads
the same three environment variables and performs NO credential check of its
own; it hands the possibly-missing values straight to the external client
constructors `create_client` and `openai.OpenAI`, which are modelled as
collaborator parameters. -/
def ragServiceDeployInit (env : String → Option String)
    (createClient : Option String → Option String → Except String Unit)
    (mkOpenAIClient : Option String → Except String Unit) :
    Except String (Option String × Option String × Option String) := do
  let url := env "SUPABASE_URL"
  let key := env "SUPABASE_SERVICE_KEY"
  let oai := env "OPEN_AI_KEY"
  let _ ← createClient url key
  let _ ← mkOpenAIClient oai
  Except.ok (url, key, oai)

/-- Whether an `Except` computation succeeded. -/
def exceptOk {ε α : Type} : Except ε α → Bool
  | Except.ok _ => true
  | Except.error _ => false

/-- `RAGService._load_all_docs_for_bm25_if_needed` (src/rag_service.py lines
164-178): when the cache `all_docs` is `None`, runs the corpus fetch
(`_fetch_all_docs`, a collaborator call modelled by the `fetchAllDocs`
outcome); on success the cache holds the fetched documents, on failure the
source catches the exception and sets the cache to the empty list "to avoid
retrying constantly". When the cache is already set, nothing happens. -/
def loadAllDocsForBM25IfNeeded (fetchAllDocs : Except String (List Document))
    (all_docs : Option (List Document)) : Option (List Document) :=
  match all_docs with
  | some ds => some ds
  | none =>
    match fetchAllDocs with
    | Except.ok docs => some docs
    | Except.error _ => some []

/-- The BM25 retriever value built by `get_bm25_retriever`: the corpus it
was built over and its `k`. -/
structure BM25Retriever where
  docs : List Document
  k : Nat
deriving DecidableEq, Repr

/-- `RAGService.get_bm25_retriever` (src/rag_service.py lines 198-215):
loads the corpus cache if needed, resolves `top_k`, and builds the retriever
from `self.all_docs if self.all_docs else []` (Python truthiness: `None` and
`[]` both give `[]`). Returns the retriever together with the updated cache
state. -/
def getBM25Retriever (fetchAllDocs : Except String (List Document))
    (all_docs : Option (List Document)) (top_k : Option Nat)
    (default_bm25_top_k : Nat) :
    BM25Retriever × Option (List Document) :=
  let cache := loadAllDocsForBM25IfNeeded fetchAllDocs all_docs
  let current_top_k := top_k.getD default_bm25_top_k
  let corpus := match cache with
    | some ds => if ds.isEmpty then [] else ds
    | none => []
  ({ docs := corpus, k := current_top_k }, cache)

/-- Whether `needle` matches at the head of `hay` (character lists). -/
def matchesAt : List Char → List Char → Bool
  | [], _ => true
  | _ :: _, [] => false
  | a :: as, b :: bs => a == b && matchesAt as bs

/-- Whether `needle` occurs somewhere in `hay` (character lists). -/
def subSearch (needle : List Char) : List Char → Bool
  | [] => needle.isEmpty
  | b :: bs => matchesAt needle (b :: bs) || subSearch needle bs

/-- Python `needle in hay` on strings: substring containment. -/
def containsSubstring (hay needle : String) : Bool :=
  subSearch needle.toList hay.toList

/-- The env-derived default parameters of `RAGService.__init__`
(src/rag_service.py lines 97-103), with the source's fallback values; the
`os.getenv` parsing itself is elided, the structure stands for its result. -/
structure Defaults where
  default_embedding_model : String := "BAAI/bge-m3"
  default_vector_top_k : Nat := 10
  default_bm25_top_k : Nat := 10
  default_rpc_threshold : ℚ := 0.2
  default_ensemble_weights : List ℚ := [0.6, 0.4]
  default_temperature : ℚ := 0.1
  default_chat_model : String := "gpt-4o-mini"
deriving DecidableEq, Repr

/-- The keyword arguments of `RAGService.query_rag` (src/rag_service.py
lines 246-253), each optional. -/
structure QueryParams where
  query : String
  embedding_model : Option String := none
  vector_top_k : Option Nat := none
  bm25_top_k : Option Nat := none
  rpc_threshold : Option ℚ := none
  ensemble_weights : Option (List ℚ) := none
  temperature : Option ℚ := none
  chat_model : Option String := none
deriving DecidableEq, Repr

/-- Python `value or default` for an optional string argument: the default
is used both for `None` and for the (falsy) empty string. -/
def pyOrStr (v : Option String) (dflt : String) : String :=
  match v with
  | some s => if s == "" then dflt else s
  | none => dflt

/-- The `parameters_used` dictionary assembled by `query_rag`
(src/rag_service.py lines 266-274). -/
structure ParametersUsed where
  embedding_model : String
  vector_top_k : Nat
  bm25_top_k : Nat
  rpc_threshold : ℚ
  ensemble_weights : List ℚ
  temperature : ℚ
  chat_model : String
deriving DecidableEq, Repr

/-- The parameter resolution of `query_rag` (src/rag_service.py lines
258-274): `embedding_model` and `chat_model` fall back through Python `or`,
the rest through `x if x is not None else default`. -/
def resolveParameters (d : Defaults) (p : QueryParams) : ParametersUsed :=
  { embedding_model := pyOrStr p.embedding_model d.default_embedding_model
    vector_top_k := p.vector_top_k.getD d.default_vector_top_k
    bm25_top_k := p.bm25_top_k.getD d.default_bm25_top_k
    rpc_threshold := p.rpc_threshold.getD d.default_rpc_threshold
    ensemble_weights := p.ensemble_weights.getD d.default_ensemble_weights
    temperature := p.temperature.getD d.default_temperature
    chat_model := pyOrStr p.chat_model d.default_chat_model }

/-- The value of `qa_chain.invoke({"query": query})` (src/rag_service.py
lines 316-319): the synthesized answer and the source documents. -/
structure ChainResult where
  result : String
  source_documents : List Document
deriving DecidableEq, Repr

/-- One entry of the `source_documents` list of the returned dictionary
(src/rag_service.py lines 329-334). -/
structure SourceDocumentEntry where
  content : String
  metadata : Dict
deriving DecidableEq, Repr

/-- The dictionary returned by `query_rag` on every path
(src/rag_service.py lines 327-344). -/
structure RagQueryResult where
  answer : String
  source_documents : List SourceDocumentEntry
  parameters_used : ParametersUsed
deriving DecidableEq, Repr

/-- The fallback answer used when the chain returned no source documents
(src/rag_service.py line 325). -/
def insufficientInfoMsg : String :=
  "I couldn\x27t find sufficient relevant information in the knowledge base to answer your query reliably. Please try rephrasing your question or provide more specific details."

/-- The phrase looked for in the answer before substituting the fallback
(src/rag_service.py line 321, from the system prompt, line 289). -/
def noInfoPhrase : String := "Discúlpame, no tengo esa información ahora mismo"

/-- The start of the error answer built in the except branch of `query_rag`
(src/rag_service.py line 341). -/
def errorAnswerStart : String := "An error occurred while processing your query: "

/-- `RAGService.query_rag` (src/rag_service.py lines 246-344). The whole
body after `parameters_used` is assembled sits in one try/except, so every
internal failure — building the LLM or the retrievers, invoking the chain,
reading its result — is modelled by the single `chain : Except String
ChainResult` collaborator outcome: `Except.error e` stands for any exception
`e` raised inside the try block. The except branch returns the error-answer
dictionary; the success branch applies the no-source fallback of lines
321-325 and maps the source documents to `{content, metadata}` entries. -/
def queryRag (d : Defaults) (p : QueryParams)
    (chain : Except String ChainResult) : RagQueryResult :=
  let parameters_used := resolveParameters d p
  match chain with
  | Except.error e =>
    { answer := errorAnswerStart ++ e
      source_documents := []
      parameters_used := parameters_used }
  | Except.ok res =>
    let answer :=
      if res.source_documents.isEmpty
          && !(containsSubstring res.result noInfoPhrase) then
        insufficientInfoMsg
      else res.result
    { answer := answer
      source_documents :=
        res.source_documents.map (fun doc => ⟨doc.page_content, doc.metadata⟩)
      parameters_used := parameters_used }

/-- The JSON body accepted by the `POST /api/chat` handler (src/chat.py
lines 29-46), after JSON decoding: every field optional except that a
missing `query` is rejected. `top_k`, `temperature`, `rpc_threshold` and
`ensemble_weights` are modelled as already-typed JSON numbers, so the
`int(...)`/`float(...)` conversion failures (ValueError → 400) are absorbed
into the type. -/
structure ChatRequestBody where
  query : Option String := none
  embedding_model : Option String := none
  top_k : Option Int := none
  temperature : Option ℚ := none
  chat_model : Option String := none
  rpc_threshold : Option ℚ := none
  ensemble_weights : Option (List ℚ) := none
deriving DecidableEq, Repr

/-- The positional and keyword arguments of the `rag_service.query_rag`
call made by the chat handler (src/chat.py lines 117-126). -/
structure QueryRagArgs where
  query : String
  embedding_model : String
  vector_top_k : Nat
  bm25_top_k : Nat
  rpc_threshold : ℚ
  ensemble_weights : List ℚ
  temperature : ℚ
  chat_model : String
deriving DecidableEq, Repr

/-- The handler's HTTP response: 200 with the query result, or 400 with an
error message (the 500 branch catches exceptions of the handler itself and
is outside this model). -/
inductive ChatResponse where
  | ok (result : RagQueryResult)
  | badRequest (error : String)
deriving DecidableEq, Repr

/-- The `top_k` validation of the chat handler (src/chat.py lines 62-74):
an absent `top_k` passes, a present one must lie in `0 ≤ top_k ≤ 20`. -/
def validateTopK : Option Int → Except String Unit
  | none => Except.ok ()
  | some k =>
    if 0 ≤ k ∧ k ≤ 20 then Except.ok ()
    else Except.error "top_k must be between 0 and 20"

/-- The `temperature` validation (src/chat.py lines 79-89): an absent
temperature passes, a present one must lie in `0.01 ≤ t ≤ 1.0`. -/
def validateTemperature : Option ℚ → Except String Unit
  | none => Except.ok ()
  | some t =>
    if 1/100 ≤ t ∧ t ≤ 1 then Except.ok ()
    else Except.error "temperature must be between 0.01 and 1.0"

/-- The `ensemble_weights` validation (src/chat.py lines 100-108): an
absent value passes, a present one must be a two-element list of numbers
whose sum lies in `[0.99, 1.01]`. -/
def validateEnsembleWeights : Option (List ℚ) → Except String Unit
  | none => Except.ok ()
  | some ws =>
    if ws.length = 2 ∧ 99/100 ≤ ws.sum ∧ ws.sum ≤ 101/100 then Except.ok ()
    else
      Except.error
        "ensemble_weights must be a list of two numbers (e.g., [0.6, 0.4]) that sum to ~1.0"

/-- The hard-coded arguments of the `query_rag` call actually made by the
chat handler (src/chat.py lines 117-126): only the query string comes from
the request; every other argument is a literal in the source. -/
def hardcodedChatArgs (q : String) : QueryRagArgs :=
  { query := q
    embedding_model := "BAAI/bge-m3"
    vector_top_k := 10
    bm25_top_k := 10
    rpc_threshold := 0.2
    ensemble_weights := [0.5, 0.5]
    temperature := 0.2
    chat_model := "gpt-4o" }

/-- The `POST /api/chat` handler `chat` (src/chat.py lines 14-129),
parameterized by the service call `f` standing for
`rag_service.query_rag`. A body without a `query` key (or no JSON body) is
rejected with 400; the optional parameters are validated in source order
(`top_k`, then `temperature`, then `ensemble_weights`; `rpc_threshold` and
the model names undergo no range validation); after validation the handler
IGNORES the assembled `final_query_params` and calls `query_rag` with the
hard-coded arguments of `hardcodedChatArgs`. -/
def chatHandler (f : QueryRagArgs → RagQueryResult)
    (body : Option ChatRequestBody) : ChatResponse :=
  match body with
  | none => ChatResponse.badRequest "Missing \x27query\x27 in request body"
  | some data =>
    match data.query with
    | none => ChatResponse.badRequest "Missing \x27query\x27 in request body"
    | some query =>
      match validateTopK data.top_k with
      | Except.error e => ChatResponse.badRequest e
      | Except.ok _ =>
        match validateTemperature data.temperature with
        | Except.error e => ChatResponse.badRequest e
        | Except.ok _ =>
          match validateEnsembleWeights data.ensemble_weights with
          | Except.error e => ChatResponse.badRequest e
          | Except.ok _ => ChatResponse.ok (f (hardcodedChatArgs query))

/-- Modelled from the spec: the `Document` value object of the spec's data
model (§3) — `{text, source_id, doc_category, score}` — used by the fusion
engine, the relevance gate and the confidence assembly of the optimized
RAGService, whose implementation (imported as `RAGConfig`/`RAGService` by
src/Testing but absent from src/) is not in the repository's files. The
`retriever_origin` tag plays no role in the properties below and is
omitted. -/
structure SDocument where
  text : String
  source_id : String
  doc_category : String
  score : ℚ
deriving DecidableEq, Repr

/-- Modelled from the spec (§4.4): the terminal observation of the Adaptive
Threshold Controller — either `Succeeded` with the fused documents, or
`Exhausted` ("no retriever available") — together with the number of
retrieval attempts that were executed. -/
inductive ControllerOutcome where
  | succeeded (docs : List SDocument) (attempts : Nat)
  | exhausted (attempts : Nat)
deriving DecidableEq, Repr

/-- The number of retrieval attempts an outcome records. -/
def ControllerOutcome.attempts : ControllerOutcome → Nat
  | ControllerOutcome.succeeded _ n => n
  | ControllerOutcome.exhausted n => n

/-- Modelled from the spec (§4.4): the transition loop of the Adaptive
Threshold Controller over the remaining ladder, carrying the count of
attempts already executed. At `TryThreshold(i)` it runs one fused retrieval
at `ladder[i]` (`retrieveAt`, the live fusion execution); if the document
count reaches `min_document_count` it stops with `Succeeded`, otherwise it
advances; an empty remainder is `Exhausted`. -/
def adaptiveControllerGo (retrieveAt : ℚ → List SDocument)
    (min_document_count : Nat) : List ℚ → Nat → ControllerOutcome
  | [], n => ControllerOutcome.exhausted n
  | t :: rest, n =>
    let docs := retrieveAt t
    if min_document_count ≤ docs.length then
      ControllerOutcome.succeeded docs (n + 1)
    else adaptiveControllerGo retrieveAt min_document_count rest (n + 1)

/-- Modelled from the spec (§4.4): the Adaptive Threshold Controller run
over a full descending threshold ladder, starting at `TryThreshold(0)`. -/
def adaptiveController (retrieveAt : ℚ → List SDocument)
    (min_document_count : Nat) (ladder : List ℚ) : ControllerOutcome :=
  adaptiveControllerGo retrieveAt min_document_count ladder 0

/-- ASCII lowercasing, written as a structural map over the character list
(the keyword set and source ids scanned below are ASCII, where this agrees
with Python `str.lower()`). -/
def lowerStr (s : String) : String := ⟨s.data.map Char.toLower⟩

/-- Modelled from the spec (§4.3): the normalized deduplication key — the
lowercase `source_id`/file name. -/
def normKey (s : String) : String := lowerStr s

/-- Modelled from the spec (§4.3, §4.6): merging one document into the
accumulated fused list. On a duplicate key the first-seen entry keeps its
content and its `score` is merged with the newcomer's as the two-sample
running average `(current + new) / 2`; otherwise the document is appended. -/
def mergeIntoFused (acc : List SDocument) (d : SDocument) : List SDocument :=
  if acc.any (fun e => normKey e.source_id == normKey d.source_id) then
    acc.map (fun e =>
      if normKey e.source_id == normKey d.source_id then
        { e with score := (e.score + d.score) / 2 }
      else e)
  else acc ++ [d]

/-- Modelled from the spec (§4.3): the fusion deduplication pass — the
concatenated retriever outputs folded into a list with one entry per
normalized `source_id`. -/
def fuseDedup (docs : List SDocument) : List SDocument :=
  docs.foldl mergeIntoFused []

/-- Modelled from the spec (§4.6): `confidence_score` is the arithmetic
mean of the (non-deduplicated) scores of the documents used in synthesis,
and 0 when there is none. -/
def confidenceScore (docs : List SDocument) : ℚ :=
  if docs.length = 0 then 0
  else (docs.map SDocument.score).sum / (docs.length : ℚ)

/-- Modelled from the spec (§4.5): whether one string contains any of the
domain keywords, case-insensitively. -/
def containsAnyKeyword (keywords : List String) (s : String) : Bool :=
  keywords.any (fun k => containsSubstring (lowerStr s) (normKey k))

/-- Modelled from the spec (§4.5): the Relevance Gate
`is_relevant(documents)`: a document text containing any domain keyword
passes the set; failing that, the `source_id`/`doc_category` metadata is
scanned for the same keywords; with still no match the set is rejected. -/
def gateAccepts (keywords : List String) (docs : List SDocument) : Bool :=
  docs.any (fun d => containsAnyKeyword keywords d.text)
    || docs.any (fun d =>
        containsAnyKeyword keywords d.source_id
          || containsAnyKeyword keywords d.doc_category)

/-- Modelled from the spec (§3, §8 Scenario A): the `QueryOutcome` record
returned to the caller by the optimized service. -/
structure QueryOutcome where
  answer : String
  source_documents : List SDocument
  confidence_score : ℚ
  document_count : Nat
  warning : Option String
deriving DecidableEq, Repr

/-- Modelled from the spec (§4.5, §7): the fixed user-facing refusal
message produced when the Relevance Gate rejects. -/
def refusalMessage : String :=
  "Discúlpame, no tengo esa información ahora mismo"

/-- Modelled from the spec (§7): the distinct warning text of the
Gate-rejection path. -/
def irrelevantWarning : String :=
  "The retrieved documents do not appear to be related to the pension domain."

/-- Modelled from the spec (§4.5, §4.6, §8 Scenario A): the outcome
assembly after fusion. When the Relevance Gate rejects, the outcome is the
fixed refusal answer with the warning set and no source documents; when it
passes, the synthesizer (`synthesize`, the external LLM call) produces the
answer and the confidence is the mean document score. -/
def assembleOutcome (keywords : List String) (docs : List SDocument)
    (synthesize : List SDocument → String) : QueryOutcome :=
  if gateAccepts keywords docs then
    { answer := synthesize docs
      source_documents := docs
      confidence_score := confidenceScore docs
      document_count := docs.length
      warning := none }
  else
    { answer := refusalMessage
      source_documents := []
      confidence_score := 0
      document_count := 0
      warning := some irrelevantWarning }

/-! Concrete example values used by counterexamples and witnesses. -/

/-- A retriever configured with the stricter 0.75 similarity floor used by
the test suite. -/
def retriever075 : SupabaseRPCRetriever := { threshold := 0.75 }

/-- A retriever with the source's default configuration. -/
def defaultRetriever : SupabaseRPCRetriever := {}

/-- An RPC row whose similarity (0.1) lies below the 0.75 floor. -/
def matchLowScore : RPCMatch :=
  { text := some "articulo 45 de la ley"
    content := none
    file_name := some "ley.pdf"
    similarity := some 0.1
    score := none
    metadata := [] }

/-- An RPC row whose similarity (0.9) lies above the default 0.2 floor. -/
def matchHighScore : RPCMatch :=
  { text := some "requisitos de pension por vejez"
    content := none
    file_name := some "ley87.pdf"
    similarity := some 0.9
    score := none
    metadata := [] }

/-- An environment with every variable unset. -/
def envEmpty : String → Option String := fun _ => none

/-- The dedup keys of a fused list: each document's normalized source id. -/
def keysOf (l : List SDocument) : List String :=
  l.map (fun e => normKey e.source_id)

/-- A fused document used by the controller witness. -/
def exSDoc : SDocument :=
  { text := "requisitos de pension", source_id := "ley8701.pdf"
    doc_category := "leyes", score := 0.8 }

/-- A retrieval stub returning one document at every threshold. -/
def exRetrieveAt : ℚ → List SDocument := fun _ => [exSDoc]

/-- A single synthesis document of score 1/2 for the confidence witness. -/
def exConfDoc : SDocument :=
  { text := "regimen contributivo", source_id := "ley8701.pdf"
    doc_category := "leyes", score := 1/2 }

/-- An off-topic document for the gate witness. -/
def exOffTopicDoc : SDocument :=
  { text := "torta de chocolate con ingredientes dominicanos"
    source_id := "recetas.pdf", doc_category := "otros", score := 0.9 }

/-- A request body with several optional parameters set. -/
def exBody1 : ChatRequestBody :=
  { query := some "cuales son los requisitos de pension"
    embedding_model := some "text-embedding-3-small"
    top_k := some 5
    chat_model := some "gpt-4" }

/-- A second body with the same query and different optional parameters. -/
def exBody2 : ChatRequestBody :=
  { query := some "cuales son los requisitos de pension"
    top_k := some 20
    rpc_threshold := some 0.9 }

/-- A concrete service call echoing its arguments into the answer. -/
def exServiceCall : QueryRagArgs → RagQueryResult := fun a =>
  { answer := a.query ++ " / " ++ a.embedding_model ++ " / " ++ a.chat_model
    source_documents := []
    parameters_used :=
      { embedding_model := a.embedding_model
        vector_top_k := a.vector_top_k
        bm25_top_k := a.bm25_top_k
        rpc_threshold := a.rpc_threshold
        ensemble_weights := a.ensemble_weights
        temperature := a.temperature
        chat_model := a.chat_model } }

/-- Claim C1: the claim as stated is false on the source — the vector
retriever does NOT re-apply the similarity floor client-side. With the
threshold set to 0.75, an RPC response carrying a single match of score 0.1
is returned as a document of score 0.1 (below the floor), not discarded:
`_get_relevant_documents` maps every returned match to a document with no
score filter (src/rag_service.py lines 45-84). -/
theorem C1_claim_counterexample :
    getRelevantDocuments retriever075 (Except.ok (some [matchLowScore]))
        = Except.ok [docOfMatch matchLowScore]
    ∧ docScore (docOfMatch matchLowScore) < retriever075.threshold :=
  ⟨rfl, by
    norm_num [docScore, docOfMatch, matchLowScore, dictGet, metaFileName,
      retriever075]⟩

/-- Claim C1 (amended): the retriever forwards the threshold to the RPC and
returns the server's matches unfiltered, so every returned document's score
meets the floor exactly when every score in the RPC response does; there is
no client-side re-application of the floor. -/
theorem C1_threshold_only_from_server (r : SupabaseRPCRetriever)
    (ms : List RPCMatch)
    (h : ∀ m ∈ ms, r.threshold ≤ docScore (docOfMatch m)) :
    ∃ docs, getRelevantDocuments r (Except.ok (some ms)) = Except.ok docs
      ∧ ∀ d ∈ docs, r.threshold ≤ docScore d := by
  refine ⟨if ms.isEmpty then [] else ms.map docOfMatch, rfl, ?_⟩
  intro d hd
  by_cases he : ms.isEmpty
  · simp [he] at hd
  · rw [if_neg he, List.mem_map] at hd
    obtain ⟨m, hm, hdm⟩ := hd
    subst hdm
    exact h m hm

/-- Claim C1 witness: the amended statement at a concrete input — a single
match of score 0.9 against the default 0.2 floor. -/
theorem C1_threshold_witness :
    ∃ docs,
      getRelevantDocuments defaultRetriever (Except.ok (some [matchHighScore]))
          = Except.ok docs
      ∧ ∀ d ∈ docs, defaultRetriever.threshold ≤ docScore d :=
  C1_threshold_only_from_server defaultRetriever [matchHighScore] (by
    intro m hm
    simp only [List.mem_singleton] at hm
    subst hm
    norm_num [docScore, docOfMatch, matchHighScore, dictGet, metaFileName,
      defaultRetriever])

/-- Claim C2: `query_rag` always returns the assembled result dictionary
(the embedding `queryRag` is a total function of the synthesis outcome, so
no exception crosses the boundary), and on any internal failure `e` of the
try block the answer is the explicit error string carrying the error detail
and the source-document list is empty, with the resolved parameters still
reported. -/
theorem C2_query_rag_error_boundary (d : Defaults) (p : QueryParams)
    (chain : Except String ChainResult) (e : String)
    (h : chain = Except.error e) :
    (queryRag d p chain).answer = errorAnswerStart ++ e
    ∧ (queryRag d p chain).source_documents = []
    ∧ (queryRag d p chain).parameters_used = resolveParameters d p := by
  subst h
  exact ⟨rfl, rfl, rfl⟩

/-- Claim C2 witness: the error shape at a concrete failing synthesis. -/
theorem C2_query_rag_witness :
    (queryRag {} { query := "hola" } (Except.error "boom")).answer
        = errorAnswerStart ++ "boom"
    ∧ (queryRag {} { query := "hola" } (Except.error "boom")).source_documents
        = []
    ∧ (queryRag {} { query := "hola" } (Except.error "boom")).parameters_used
        = resolveParameters {} { query := "hola" } :=
  C2_query_rag_error_boundary {} { query := "hola" } (Except.error "boom")
    "boom" rfl

/-- Claim C5: the claim as stated is false on the source for the vector
retriever — `_get_relevant_documents` has no try/except, so an RPC
transport failure propagates to the caller instead of yielding an empty
sequence. -/
theorem C5_claim_counterexample :
    getRelevantDocuments defaultRetriever (Except.error "timeout")
        = Except.error "timeout"
    ∧ getRelevantDocuments defaultRetriever (Except.error "timeout")
        ≠ Except.ok [] := by
  refine ⟨rfl, ?_⟩
  simp [getRelevantDocuments]

/-- Claim C5 (amended): on transport failure the vector retriever
propagates the error to its caller (where `query_rag`'s own try/except
catches it), while the lexical side degrades as claimed: a failed corpus
fetch is caught by `_load_all_docs_for_bm25_if_needed`, which caches the
empty list, and `get_bm25_retriever` then builds a retriever over the empty
corpus without raising. -/
theorem C5_transport_failure_paths (r : SupabaseRPCRetriever) (e : String)
    (k : Option Nat) (dk : Nat) :
    getRelevantDocuments r (Except.error e) = Except.error e
    ∧ loadAllDocsForBM25IfNeeded (Except.error e) none = some []
    ∧ (getBM25Retriever (Except.error e) none k dk).1.docs = [] :=
  ⟨rfl, rfl, rfl⟩

/-- Claim C6: the claim as stated is false for the deploy variant —
`RAGService.__init__` of src/rag_service_deploy.py performs no credential
check of its own, so with every credential missing and external client
constructors that accept their arguments, construction succeeds and yields
an instance. -/
theorem C6_claim_counterexample :
    envEmpty "SUPABASE_URL" = none
    ∧ envEmpty "SUPABASE_SERVICE_KEY" = none
    ∧ envEmpty "OPEN_AI_KEY" = none
    ∧ exceptOk (ragServiceDeployInit envEmpty (fun _ _ => Except.ok ())
        (fun _ => Except.ok ())) = true :=
  ⟨rfl, rfl, rfl, rfl⟩

/-- Claim C6 (amended): the primary service refuses to start —
`RAGService.__init__` of src/rag_service.py raises `ValueError` whenever
any of the three credentials is missing or empty; the deploy variant
performs no such check and delegates validation to its external client
constructors. -/
theorem C6_init_refuses_start (env : String → Option String)
    (h : (truthyStr (env "SUPABASE_URL")
        && truthyStr (env "SUPABASE_SERVICE_KEY")
        && truthyStr (env "OPEN_AI_KEY")) = false) :
    ragServiceInit env = Except.error missingCredentialsMsg := by
  unfold ragServiceInit
  simp [h]

/-- Claim C6 witness: construction fails on the empty environment. -/
theorem C6_init_witness :
    ragServiceInit envEmpty = Except.error missingCredentialsMsg :=
  C6_init_refuses_start envEmpty rfl

/-- Claim C10: the BM25 corpus cache is loaded at most once — with the
cache already set to `ds`, `_load_all_docs_for_bm25_if_needed` leaves it
unchanged and `get_bm25_retriever` neither mutates it nor consults the
fetch collaborator (its result is identical for any two fetch outcomes);
after a failed initial fetch the cache is the empty list, and every later
call builds the retriever over the empty corpus, again without consulting
the fetch. -/
theorem C10_bm25_cache_loaded_once (f1 f2 : Except String (List Document))
    (ds : List Document) (e : String) (k : Option Nat) (dk : Nat) :
    loadAllDocsForBM25IfNeeded f1 (some ds) = some ds
    ∧ (getBM25Retriever f1 (some ds) k dk).2 = some ds
    ∧ getBM25Retriever f1 (some ds) k dk = getBM25Retriever f2 (some ds) k dk
    ∧ loadAllDocsForBM25IfNeeded (Except.error e) none = some []
    ∧ (getBM25Retriever f1 (some []) k dk).1
        = { docs := [], k := k.getD dk }
    ∧ (getBM25Retriever f1 (some []) k dk).2 = some [] :=
  ⟨rfl, rfl, rfl, rfl, rfl, rfl⟩

/-- Merging a document either leaves the key list unchanged (duplicate key:
only scores are updated) or appends the new key. -/
theorem keysOf_mergeIntoFused (acc : List SDocument) (d : SDocument) :
    keysOf (mergeIntoFused acc d)
      = if acc.any (fun e => normKey e.source_id == normKey d.source_id)
        then keysOf acc
        else keysOf acc ++ [normKey d.source_id] := by
  by_cases hc : acc.any (fun e => normKey e.source_id == normKey d.source_id)
  · simp only [mergeIntoFused, hc, if_true, keysOf, List.map_map]
    apply List.map_congr_left
    intro e _
    by_cases he : (normKey e.source_id == normKey d.source_id) = true
    · simp [Function.comp, he]
    · simp [Function.comp, he]
  · simp only [mergeIntoFused, hc, Bool.false_eq_true, if_false, keysOf,
      List.map_append, List.map_cons, List.map_nil]

/-- A key present in the accumulator, or the merged document's own key, is
present after the merge. -/
theorem mem_keysOf_mergeIntoFused (acc : List SDocument) (d : SDocument)
    (k : String) (h : k ∈ keysOf acc ∨ k = normKey d.source_id) :
    k ∈ keysOf (mergeIntoFused acc d) := by
  rw [keysOf_mergeIntoFused]
  by_cases hc : acc.any (fun e => normKey e.source_id == normKey d.source_id)
  · rw [if_pos hc]
    rcases h with h | rfl
    · exact h
    · rw [List.any_eq_true] at hc
      obtain ⟨e, he, hk⟩ := hc
      rw [beq_iff_eq] at hk
      rw [← hk]
      exact List.mem_map_of_mem _ he
  · rw [if_neg hc]
    rcases h with h | rfl
    · exact List.mem_append_left _ h
    · exact List.mem_append_right _ (List.mem_singleton_self _)

/-- The fused fold keeps the accumulator's keys distinct. -/
theorem nodup_keysOf_foldl (docs : List SDocument) :
    ∀ acc : List SDocument, (keysOf acc).Nodup →
      (keysOf (docs.foldl mergeIntoFused acc)).Nodup := by
  induction docs with
  | nil => intro acc h; simpa using h
  | cons d rest ih =>
    intro acc h
    rw [List.foldl_cons]
    apply ih
    rw [keysOf_mergeIntoFused]
    by_cases hc : acc.any (fun e => normKey e.source_id == normKey d.source_id)
    · rw [if_pos hc]; exact h
    · rw [if_neg hc]
      have hnot : normKey d.source_id ∉ keysOf acc := by
        intro hmem
        apply hc
        rw [List.any_eq_true]
        obtain ⟨e, he, hk⟩ := List.mem_map.mp hmem
        exact ⟨e, he, by rw [beq_iff_eq, hk]⟩
      simp [List.nodup_append, h, hnot]

/-- Every input document's key appears among the fused keys. -/
theorem mem_keysOf_foldl (docs : List SDocument) :
    ∀ (acc : List SDocument) (k : String),
      (k ∈ keysOf acc ∨ ∃ d ∈ docs, k = normKey d.source_id) →
      k ∈ keysOf (docs.foldl mergeIntoFused acc) := by
  induction docs with
  | nil =>
    intro acc k h
    rcases h with h | ⟨d, hd, _⟩
    · simpa using h
    · simp at hd
  | cons d rest ih =>
    intro acc k h
    rw [List.foldl_cons]
    apply ih
    rcases h with h | ⟨d', hd', hk⟩
    · exact Or.inl (mem_keysOf_mergeIntoFused _ _ _ (Or.inl h))
    · rcases List.mem_cons.mp hd' with rfl | hrest
      · exact Or.inl (mem_keysOf_mergeIntoFused _ _ _ (Or.inr hk))
      · exact Or.inr ⟨d', hrest, hk⟩

/-- In a list with pairwise-distinct keys, filtering by a key that occurs
keeps exactly one entry. -/
theorem filter_key_length_one (l : List SDocument) (k : String)
    (hnd : (keysOf l).Nodup) (hk : k ∈ keysOf l) :
    (l.filter (fun e => normKey e.source_id == k)).length = 1 := by
  induction l with
  | nil => simp [keysOf] at hk
  | cons a rest ih =>
    rw [keysOf, List.map_cons, List.nodup_cons] at hnd
    rw [List.filter_cons]
    by_cases ha : normKey a.source_id = k
    · rw [if_pos (by rw [beq_iff_eq]; exact ha)]
      have hnone : rest.filter (fun e => normKey e.source_id == k) = [] := by
        rw [List.filter_eq_nil_iff]
        intro e he hb
        apply hnd.1
        rw [beq_iff_eq] at hb
        rw [← ha] at hb
        rw [← hb]
        exact List.mem_map_of_mem _ he
      rw [hnone]
      rfl
    · rw [if_neg (by rw [beq_iff_eq]; exact ha)]
      apply ih hnd.2
      have hk2 : k = normKey a.source_id ∨ ∃ e ∈ rest, normKey e.source_id = k := by
        simpa [keysOf] using hk
      rcases hk2 with h | ⟨e, he, hke⟩
      · exact absurd h.symm ha
      · rw [keysOf, List.mem_map]
        exact ⟨e, he, hke⟩

/-- Claim C4 (modelled from the spec, §4.3): for any document of the fused
input, the deduplicated output contains exactly one entry whose normalized
`source_id` matches it; and in the concrete Scenario D, two documents
sharing the source id (up to case) with scores 0.8 and 0.6 fuse to a single
entry keeping the first-seen content with the averaged score 0.7. -/
theorem C4_fusion_dedup_unique (docs : List SDocument) (d : SDocument)
    (hd : d ∈ docs) :
    ((fuseDedup docs).filter
        (fun e => normKey e.source_id == normKey d.source_id)).length = 1
    ∧ fuseDedup [⟨"articulo A", "doc1", "leyes", 0.8⟩,
          ⟨"articulo B", "DOC1", "leyes", 0.6⟩]
        = [⟨"articulo A", "doc1", "leyes", 0.7⟩] := by
  constructor
  · apply filter_key_length_one
    · exact nodup_keysOf_foldl docs [] (by simp [keysOf])
    · exact mem_keysOf_foldl docs [] _ (Or.inr ⟨d, hd, rfl⟩)
  · norm_num [fuseDedup, mergeIntoFused,
      (by decide : (normKey "doc1" == normKey "DOC1") = true),
      (by decide : normKey "doc1" = normKey "DOC1")]

/-- Claim C4 witness: the unique-entry count at a concrete two-document
input sharing one normalized source id. -/
theorem C4_fusion_witness :
    ((fuseDedup [⟨"articulo A", "doc1", "leyes", (0.8 : ℚ)⟩,
          ⟨"articulo B", "DOC1", "leyes", 0.6⟩]).filter
        (fun e => normKey e.source_id
            == normKey (SDocument.mk "articulo A" "doc1" "leyes" 0.8).source_id)).length
      = 1
    ∧ fuseDedup [⟨"articulo A", "doc1", "leyes", 0.8⟩,
          ⟨"articulo B", "DOC1", "leyes", 0.6⟩]
        = [⟨"articulo A", "doc1", "leyes", 0.7⟩] :=
  C4_fusion_dedup_unique
    [⟨"articulo A", "doc1", "leyes", 0.8⟩, ⟨"articulo B", "DOC1", "leyes", 0.6⟩]
    ⟨"articulo A", "doc1", "leyes", 0.8⟩ (List.mem_cons_self _ _)

/-- The controller loop started with `n` attempts already counted performs
at most `ladder.length` further attempts, and a success carries at least
`min_document_count` documents. -/
theorem adaptiveControllerGo_spec (f : ℚ → List SDocument) (m : Nat)
    (ladder : List ℚ) : ∀ n : Nat,
    (adaptiveControllerGo f m ladder n).attempts ≤ n + ladder.length
    ∧ ∀ docs j,
        adaptiveControllerGo f m ladder n = ControllerOutcome.succeeded docs j
        → m ≤ docs.length := by
  induction ladder with
  | nil =>
    intro n
    refine ⟨by simp [adaptiveControllerGo, ControllerOutcome.attempts], ?_⟩
    intro docs j h
    simp [adaptiveControllerGo] at h
  | cons t rest ih =>
    intro n
    by_cases hc : m ≤ (f t).length
    · refine ⟨?_, ?_⟩
      · simp only [adaptiveControllerGo, if_pos hc, ControllerOutcome.attempts,
          List.length_cons]
        omega
      · intro docs j h
        simp only [adaptiveControllerGo, if_pos hc] at h
        cases h
        exact hc
    · refine ⟨?_, ?_⟩
      · have h1 := (ih (n + 1)).1
        simp only [adaptiveControllerGo, if_neg hc, List.length_cons]
        omega
      · intro docs j h
        simp only [adaptiveControllerGo, if_neg hc] at h
        exact (ih (n + 1)).2 docs j h

/-- Claim C3 (modelled from the spec, §4.4): the Adaptive Threshold
Controller performs at most `len(ladder)` retrieval attempts — its
structurally recursive loop is total, the recorded attempt count is bounded
by the ladder length — and whenever it reports success, the returned
document set meets `min_document_count`; there is no unbounded or
background retry. -/
theorem C3_ladder_termination (f : ℚ → List SDocument) (m : Nat)
    (ladder : List ℚ) :
    (adaptiveController f m ladder).attempts ≤ ladder.length
    ∧ ∀ docs j,
        adaptiveController f m ladder = ControllerOutcome.succeeded docs j
        → m ≤ docs.length := by
  have h := adaptiveControllerGo_spec f m ladder 0
  exact ⟨by simpa [adaptiveController] using h.1,
    fun docs j hh => h.2 docs j hh⟩

/-- Claim C3 witness: two-step ladder, success on the first attempt. -/
theorem C3_ladder_witness :
    (adaptiveController exRetrieveAt 1 [0.75, 0.5]).attempts ≤ 2
    ∧ 1 ≤ [exSDoc].length :=
  ⟨(C3_ladder_termination exRetrieveAt 1 [0.75, 0.5]).1,
   (C3_ladder_termination exRetrieveAt 1 [0.75, 0.5]).2 [exSDoc] 1 rfl⟩

/-- Claim C7 (modelled from the spec, §4.6): with every synthesis-document
score normalized into [0, 1] (the Score Normalizer's guarantee), the
`confidence_score` of the outcome — the arithmetic mean of the scores — is
0 for an empty document set and lies in [0, 1] always. -/
theorem C7_confidence_bounds (docs : List SDocument)
    (h : ∀ d ∈ docs, 0 ≤ d.score ∧ d.score ≤ 1) :
    (docs.length = 0 → confidenceScore docs = 0)
    ∧ 0 ≤ confidenceScore docs ∧ confidenceScore docs ≤ 1 := by
  refine ⟨fun h0 => by simp [confidenceScore, h0], ?_, ?_⟩
  · unfold confidenceScore
    split
    · exact le_refl 0
    · apply div_nonneg
      · apply List.sum_nonneg
        intro x hx
        obtain ⟨d, hd, hdx⟩ := List.mem_map.mp hx
        rw [← hdx]
        exact (h d hd).1
      · exact_mod_cast Nat.zero_le _
  · unfold confidenceScore
    split
    · exact zero_le_one
    · rename_i hne
      rw [div_le_one (by exact_mod_cast Nat.pos_of_ne_zero hne)]
      have hb := List.sum_le_card_nsmul (docs.map SDocument.score) 1 (by
        intro x hx
        obtain ⟨d, hd, hdx⟩ := List.mem_map.mp hx
        rw [← hdx]
        exact (h d hd).2)
      simpa [List.length_map, nsmul_eq_mul] using hb

/-- Claim C7 witness: the bounds at a one-document input of score 1/2. -/
theorem C7_confidence_witness :
    ([exConfDoc].length = 0 → confidenceScore [exConfDoc] = 0)
    ∧ 0 ≤ confidenceScore [exConfDoc] ∧ confidenceScore [exConfDoc] ≤ 1 :=
  C7_confidence_bounds [exConfDoc] (by
    intro d hd
    rw [List.mem_singleton] at hd
    subst hd
    constructor <;> norm_num [exConfDoc])

/-- Claim C8 (modelled from the spec, §4.5 and Scenario A): whenever the
Relevance Gate rejects the retrieved documents (no keyword match in any
text nor in the metadata), the assembled `QueryOutcome` carries the warning,
the fixed refusal answer, and an empty source-document list. -/
theorem C8_gate_reject_refusal (keywords : List String)
    (docs : List SDocument) (synthesize : List SDocument → String)
    (h : gateAccepts keywords docs = false) :
    (assembleOutcome keywords docs synthesize).warning = some irrelevantWarning
    ∧ (assembleOutcome keywords docs synthesize).answer = refusalMessage
    ∧ (assembleOutcome keywords docs synthesize).source_documents = [] := by
  simp [assembleOutcome, h]

/-- Claim C8 witness: the refusal outcome on a concrete off-topic document
set against the keyword set. -/
theorem C8_gate_witness :
    (assembleOutcome ["pension", "sipen"] [exOffTopicDoc]
        (fun _ => "answer")).warning = some irrelevantWarning
    ∧ (assembleOutcome ["pension", "sipen"] [exOffTopicDoc]
        (fun _ => "answer")).answer = refusalMessage
    ∧ (assembleOutcome ["pension", "sipen"] [exOffTopicDoc]
        (fun _ => "answer")).source_documents = [] :=
  C8_gate_reject_refusal ["pension", "sipen"] [exOffTopicDoc]
    (fun _ => "answer") (by decide)

/-- Claim C9: the chat handler calls `query_rag` with the hard-coded
argument set — embedding model "BAAI/bge-m3", both top_k values 10,
rpc_threshold 0.2, ensemble weights [0.5, 0.5], temperature 0.2, chat model
"gpt-4o" — for every request body that passes validation, so any two bodies
sharing the same query string (whatever their optional parameters) produce
the identical response. -/
theorem C9_chat_ignores_optional_params (f : QueryRagArgs → RagQueryResult)
    (b1 b2 : ChatRequestBody) (q : String)
    (h1q : b1.query = some q) (h2q : b2.query = some q)
    (h1k : validateTopK b1.top_k = Except.ok ())
    (h1t : validateTemperature b1.temperature = Except.ok ())
    (h1w : validateEnsembleWeights b1.ensemble_weights = Except.ok ())
    (h2k : validateTopK b2.top_k = Except.ok ())
    (h2t : validateTemperature b2.temperature = Except.ok ())
    (h2w : validateEnsembleWeights b2.ensemble_weights = Except.ok ()) :
    chatHandler f (some b1) = ChatResponse.ok (f (hardcodedChatArgs q))
    ∧ chatHandler f (some b1) = chatHandler f (some b2) := by
  have e1 : chatHandler f (some b1) = ChatResponse.ok (f (hardcodedChatArgs q)) := by
    simp [chatHandler, h1q, h1k, h1t, h1w]
  have e2 : chatHandler f (some b2) = ChatResponse.ok (f (hardcodedChatArgs q)) := by
    simp [chatHandler, h2q, h2k, h2t, h2w]
  exact ⟨e1, e1.trans e2.symm⟩

/-- Claim C9 witness: two concrete valid bodies differing in every
optional parameter produce the same hard-coded call and equal responses. -/
theorem C9_chat_witness :
    chatHandler exServiceCall (some exBody1)
        = ChatResponse.ok
            (exServiceCall
              (hardcodedChatArgs "cuales son los requisitos de pension"))
    ∧ chatHandler exServiceCall (some exBody1)
        = chatHandler exServiceCall (some exBody2) :=
  C9_chat_ignores_optional_params exServiceCall exBody1 exBody2
    "cuales son los requisitos de pension" rfl rfl rfl rfl rfl rfl rfl rfl

end ChatTFM
